import Mathlib

/-!
Verification development for the MERN_Structure repository.

The definitions below are shallow embeddings of the repository's
request-processing security pipeline:

* `Stage` / `middlewareChain` — the ordered `app.use` composition from
  `Backend/src/app.ts`;
* `errorHandler` — the terminal global error handler of `Backend/src/app.ts`;
* the terminating error responses of the chain middlewares from
  `Backend/src/middlewares/apiSecurity.ts`;
* `RateLimiter.isAllowed` — `Frontend/src/utils/security.ts`;
* `responseInterceptor` — the axios response interceptor of
  `Frontend/src/services/api.ts`;
* `sanitizeEntry` — the recursive request sanitizer of
  `Backend/src/middlewares/apiSecurity.ts`, including character-level models
  of its three regex replacements;
* `SecretsManager.hash` / `verifyHash` / `sign` / `verifySignature` — the
  backend secrets manager (the external KDF / HMAC primitives of Node's
  `crypto` module are abstract function parameters; the repository's own
  comparison and recomputation logic is modelled exactly);
* `FrontendSecurity.encrypt` / `decrypt` — the client storage cipher wrapper
  (the external CryptoJS primitive is an abstract fallible parameter).
-/

namespace MernSpec

/-! ## Backend middleware chain (`Backend/src/app.ts`)

One constructor per `app.use` registration between the start of the security
layers and the end of layer 7 (compression).  `morganDev` is registered only
when `config.env === 'development'`, hence the `dev` flag.  `generalLimiter`
is mounted at the `/api/` path prefix; all other stages are mounted
unconditionally. -/

inductive Stage where
  | requestIdMiddleware
  | securityHeaders
  | corsMiddleware
  | requestLogger
  | morganDev
  | generalLimiter
  | expressJson
  | expressUrlencoded
  | cookieParsing
  | mongoSanitizeConfig
  | hppConfig
  | sanitizeInput
  | detectSuspiciousActivity
  | validateUserAgent
  | validateContentType
  | compressionConfig
  deriving DecidableEq

/-- The `app.use` chain of `Backend/src/app.ts`, lines 20-50, top to bottom.
`dev` is whether `config.env === 'development'`. -/
def middlewareChain (dev : Bool) : List Stage :=
  [Stage.requestIdMiddleware, Stage.securityHeaders, Stage.corsMiddleware,
   Stage.requestLogger]
  ++ (if dev then [Stage.morganDev] else [])
  ++ [Stage.generalLimiter, Stage.expressJson, Stage.expressUrlencoded,
      Stage.cookieParsing, Stage.mongoSanitizeConfig, Stage.hppConfig,
      Stage.sanitizeInput, Stage.detectSuspiciousActivity,
      Stage.validateUserAgent, Stage.validateContentType,
      Stage.compressionConfig]

/-- The spec's named pipeline stages, in the order the spec states them:
request-id tagging, header hardening, CORS decision, rate limiting,
body parsing with size limits, input sanitization, anomaly detection,
content-type gating, response compression. -/
def specOrderedStages : List Stage :=
  [Stage.requestIdMiddleware, Stage.securityHeaders, Stage.corsMiddleware,
   Stage.generalLimiter, Stage.expressJson, Stage.sanitizeInput,
   Stage.detectSuspiciousActivity, Stage.validateContentType,
   Stage.compressionConfig]

/-- C1: the spec's nine named security stages occur in the server's
middleware chain in exactly the stated relative order (for both the
development and non-development registration of the chain), and response
compression is the final stage of the chain. -/
theorem C1_middleware_chain_order (dev : Bool) :
    specOrderedStages.Sublist (middlewareChain dev) ∧
    (middlewareChain dev).getLast? = some Stage.compressionConfig := by
  cases dev <;> exact ⟨by decide, rfl⟩

/-! ## Client-side rate limiter (`Frontend/src/utils/security.ts`)

`RateLimiter` keeps `requests : Map<string, number[]>`; the map is modelled
as an association list (`mapGet` is `map.get(k) || []`, `mapSet` is
`map.set(k, v)`).  Timestamps are integers (`Date.now()`). -/

def mapGet (m : List (String × List Int)) (k : String) : List Int :=
  match m with
  | [] => []
  | (k2, v) :: rest => if k2 = k then v else mapGet rest k

def mapSet (m : List (String × List Int)) (k : String) (v : List Int) :
    List (String × List Int) :=
  match m with
  | [] => [(k, v)]
  | (k2, v2) :: rest =>
    if k2 = k then (k, v) :: rest else (k2, v2) :: mapSet rest k v

structure RateLimiter where
  maxRequests : Nat
  timeWindow : Int
  requests : List (String × List Int)
  deriving DecidableEq

namespace RateLimiter

/-- `RateLimiter.isAllowed` from `Frontend/src/utils/security.ts`:
read the identifier's timestamps (or `[]`), keep those with
`now - timestamp < timeWindow`, refuse when the retained count has reached
`maxRequests`, otherwise push `now`, store the filtered-plus-new list and
allow.  Returns the boolean result together with the updated limiter. -/
def isAllowed (rl : RateLimiter) (identifier : String) (now : Int) :
    Bool × RateLimiter :=
  let userRequests := mapGet rl.requests identifier
  let recentRequests := userRequests.filter fun t => now - t < rl.timeWindow
  if rl.maxRequests ≤ recentRequests.length then
    (false, rl)
  else
    (true,
     { rl with
        requests := mapSet rl.requests identifier (recentRequests ++ [now]) })

/-- `RateLimiter.reset` deletes the identifier's record. -/
def reset (rl : RateLimiter) (identifier : String) : RateLimiter :=
  { rl with requests := rl.requests.filter fun p => p.1 ≠ identifier }

end RateLimiter

/-- Run `isAllowed` once per timestamp in the list, threading the limiter
state, and collect the boolean verdicts. -/
def runCalls (rl : RateLimiter) (identifier : String) : List Int → List Bool
  | [] => []
  | t :: ts =>
    let r := rl.isAllowed identifier t
    r.1 :: runCalls r.2 identifier ts

/-- C5: `isAllowed` allows exactly when the timestamps surviving eviction
number fewer than `maxRequests`; on allow it stores the evicted list with
`now` appended, on refusal it leaves the limiter untouched (nothing is
appended).  Concretely, with `maxRequests = 5` and a 1000 ms window, five
calls inside the window are allowed, the sixth is refused, and a call after
the window has passed is allowed again. -/
theorem C5_rate_limiter_isAllowed (rl : RateLimiter) (identifier : String)
    (now : Int) :
    ((rl.isAllowed identifier now).1 = true ↔
      ((mapGet rl.requests identifier).filter
        fun t => now - t < rl.timeWindow).length < rl.maxRequests) ∧
    (rl.isAllowed identifier now).2 =
      (if ((mapGet rl.requests identifier).filter
            fun t => now - t < rl.timeWindow).length < rl.maxRequests then
        { rl with
            requests := mapSet rl.requests identifier
              (((mapGet rl.requests identifier).filter
                  fun t => now - t < rl.timeWindow) ++ [now]) }
       else rl) ∧
    runCalls ⟨5, 1000, []⟩ "x" [0, 100, 200, 300, 400, 500, 1401] =
      [true, true, true, true, true, false, true] := by
  refine ⟨?_, ?_, by decide⟩
  · simp only [RateLimiter.isAllowed]
    split <;> rename_i h <;> simp <;> omega
  · simp only [RateLimiter.isAllowed]
    split <;> rename_i h
    · rw [if_neg (by omega)]
    · rw [if_pos (by omega)]

/-! ## Client storage cipher (`Frontend/src/utils/security.ts`)

`encrypt` / `decrypt` wrap `CryptoJS.AES.encrypt` / `CryptoJS.AES.decrypt`
in a `try`/`catch` whose `catch` branch returns the *input* argument
unchanged.  The CryptoJS primitive is external library code, modelled as an
abstract operation that either produces a string or throws. -/

namespace FrontendSecurity

/-- `encrypt` from `Frontend/src/utils/security.ts`: return the cipher
output; if the cipher throws, log and return the plaintext input itself.
The total return type `String` records that the wrapper never raises. -/
def encrypt (aesEncrypt : String → Except String String) (data : String) :
    String :=
  match aesEncrypt data with
  | .ok c => c
  | .error _ => data

/-- `decrypt` from `Frontend/src/utils/security.ts`: return the decrypted
string; if the cipher throws, log and return the encrypted input itself. -/
def decrypt (aesDecrypt : String → Except String String)
    (encryptedData : String) : String :=
  match aesDecrypt encryptedData with
  | .ok p => p
  | .error _ => encryptedData

end FrontendSecurity

/-- C10: the client-side storage cipher fails open.  Whenever the underlying
primitive throws, `decrypt` returns the encrypted input string unchanged and
`encrypt` returns the plaintext unchanged; both wrappers are total (they
never propagate the failure to the caller), so a decryption failure yields
the non-plaintext input instead of an error. -/
theorem C10_client_cipher_fails_open
    (op : String → Except String String) (s e : String) (h : op s = .error e) :
    FrontendSecurity.encrypt op s = s ∧ FrontendSecurity.decrypt op s = s := by
  constructor
  · simp only [FrontendSecurity.encrypt, h]
  · simp only [FrontendSecurity.decrypt, h]

/-- Witness for C10 at a concretely failing primitive. -/
theorem C10_client_cipher_fails_open_witness :
    FrontendSecurity.encrypt (fun _ => .error "boom") "payload" = "payload" ∧
    FrontendSecurity.decrypt (fun _ => .error "boom") "payload" = "payload" :=
  C10_client_cipher_fails_open (fun _ => .error "boom") "payload" "boom" rfl

/-! ## Terminal error classifier (`Backend/src/app.ts`, global error handler)

`CustomError` models the handler's view of a raised failure: `message`,
`name`, the optional numeric `status` and `statusCode` fields, the optional
body-parser `type` tag (field `errType`), the per-field validation messages
(`Object.values(err.errors).map(e => e.message)`), and the stack trace.
`ErrResponse` is the JSON body sent by a terminating middleware or by the
handler, together with the HTTP status it is sent with. -/

structure CustomError where
  message : String
  name : String
  status : Option Nat
  statusCode : Option Nat
  errType : Option String
  errors : List String
  stack : String
  deriving DecidableEq

structure ErrResponse where
  status : Nat
  success : Bool
  message : String
  requestId : Option String
  errors : Option (List String)
  stack : Option String
  deriving DecidableEq

/-- JavaScript `a || b` for strings: the empty string is falsy. -/
def jsOrString (a b : String) : String :=
  if a = "" then b else a

/-- JavaScript `a || b` for an optional numeric field: `undefined` and `0`
are falsy. -/
def jsOrStatus (a : Option Nat) (b : Nat) : Nat :=
  match a with
  | some n => if n = 0 then b else n
  | none => b

/-- The global error handler of `Backend/src/app.ts`, branch for branch in
source order: CORS message, `status === 429`, `ValidationError`,
`JsonWebTokenError`, `TokenExpiredError`, `type === 'entity.too.large'`,
then the default classification from `statusCode || status || 500` with the
production-generic message and a development-only stack trace. -/
def errorHandler (env : String) (e : CustomError) (rid : String) :
    ErrResponse :=
  if e.message = "Not allowed by CORS" then
    { status := 403, success := false, message := "CORS policy: Access denied",
      requestId := some rid, errors := none, stack := none }
  else if e.status = some 429 then
    { status := 429, success := false,
      message := jsOrString e.message "Too many requests",
      requestId := some rid, errors := none, stack := none }
  else if e.name = "ValidationError" then
    { status := 400, success := false, message := "Validation failed",
      requestId := some rid, errors := some e.errors, stack := none }
  else if e.name = "JsonWebTokenError" then
    { status := 401, success := false, message := "Invalid token",
      requestId := some rid, errors := none, stack := none }
  else if e.name = "TokenExpiredError" then
    { status := 401, success := false, message := "Token expired",
      requestId := some rid, errors := none, stack := none }
  else if e.errType = some "entity.too.large" then
    { status := 413, success := false, message := "Request payload too large",
      requestId := some rid, errors := none, stack := none }
  else
    { status := jsOrStatus e.statusCode (jsOrStatus e.status 500),
      success := false,
      message := if env = "production" then "Internal server error"
                 else jsOrString e.message "Something went wrong",
      requestId := some rid, errors := none,
      stack := if env = "development" then some e.stack else none }

/-- The classifier exactly as claim C2 words it: first match wins in the
order CORS, rate limit, payload-too-large, validation, invalid token,
expired token; the unclassified default keeps the declared status or 500,
replaces the message by a generic string in production builds, and includes
the original message plus the stack trace in every non-production build. -/
def specClassify (env : String) (e : CustomError) (rid : String) :
    ErrResponse :=
  if e.message = "Not allowed by CORS" then
    { status := 403, success := false, message := "CORS policy: Access denied",
      requestId := some rid, errors := none, stack := none }
  else if e.status = some 429 then
    { status := 429, success := false,
      message := jsOrString e.message "Too many requests",
      requestId := some rid, errors := none, stack := none }
  else if e.errType = some "entity.too.large" then
    { status := 413, success := false, message := "Request payload too large",
      requestId := some rid, errors := none, stack := none }
  else if e.name = "ValidationError" then
    { status := 400, success := false, message := "Validation failed",
      requestId := some rid, errors := some e.errors, stack := none }
  else if e.name = "JsonWebTokenError" then
    { status := 401, success := false, message := "Invalid token",
      requestId := some rid, errors := none, stack := none }
  else if e.name = "TokenExpiredError" then
    { status := 401, success := false, message := "Token expired",
      requestId := some rid, errors := none, stack := none }
  else
    { status := jsOrStatus e.statusCode (jsOrStatus e.status 500),
      success := false,
      message := if env = "production" then "Internal server error"
                 else e.message,
      requestId := some rid, errors := none,
      stack := if env = "production" then none else some e.stack }

/-- An error that is simultaneously tagged as payload-too-large
(`type = 'entity.too.large'`) and as a validation failure
(`name = 'ValidationError'`). -/
def payloadValidationError : CustomError :=
  { message := "File too large", name := "ValidationError",
    status := none, statusCode := none, errType := some "entity.too.large",
    errors := ["file: too large"], stack := "trace" }

/-- An unclassified error with an empty message, raised in a build that is
neither production nor development (for example `test`). -/
def unclassifiedTestError : CustomError :=
  { message := "", name := "Error", status := none, statusCode := none,
    errType := none, errors := [], stack := "trace" }

/-- C2 counterexample: the handler does not classify in the order the claim
states.  On an error carrying both a `ValidationError` name and an
`entity.too.large` type the code answers 400 where the claimed order answers
413; and on an unclassified empty-message error in a `test` build the code
answers `Something went wrong` with no stack trace where the claim promises
the original message plus the stack trace. -/
theorem C2_counterexample :
    errorHandler "test" payloadValidationError "r1" ≠
      specClassify "test" payloadValidationError "r1" ∧
    errorHandler "test" unclassifiedTestError "r1" ≠
      specClassify "test" unclassifiedTestError "r1" := by
  decide

/-- One rule of the amended first-match-wins classification. -/
structure ClassifierRule where
  applies : CustomError → Bool
  respond : String → CustomError → String → ErrResponse

/-- The amended default classification: declared `statusCode` or `status` or
500; generic message in production, otherwise the original message (or the
`Something went wrong` fallback when it is empty); stack trace attached only
in development builds. -/
def defaultClassification (env : String) (e : CustomError) (rid : String) :
    ErrResponse :=
  { status := jsOrStatus e.statusCode (jsOrStatus e.status 500),
    success := false,
    message := if env = "production" then "Internal server error"
               else jsOrString e.message "Something went wrong",
    requestId := some rid, errors := none,
    stack := if env = "development" then some e.stack else none }

/-- Try the rules in order; the first whose guard matches answers, and the
default classification answers when none does. -/
def applyRules (env : String) (e : CustomError) (rid : String) :
    List ClassifierRule → ErrResponse
  | [] => defaultClassification env e rid
  | r :: rest =>
    if r.applies e then r.respond env e rid else applyRules env e rid rest

/-- The amended classification order: CORS, rate limit, validation, invalid
token, expired token, payload-too-large. -/
def classifierRules : List ClassifierRule :=
  [{ applies := fun e => decide (e.message = "Not allowed by CORS"),
     respond := fun _ _ rid =>
       { status := 403, success := false,
         message := "CORS policy: Access denied",
         requestId := some rid, errors := none, stack := none } },
   { applies := fun e => decide (e.status = some 429),
     respond := fun _ e rid =>
       { status := 429, success := false,
         message := jsOrString e.message "Too many requests",
         requestId := some rid, errors := none, stack := none } },
   { applies := fun e => decide (e.name = "ValidationError"),
     respond := fun _ e rid =>
       { status := 400, success := false, message := "Validation failed",
         requestId := some rid, errors := some e.errors, stack := none } },
   { applies := fun e => decide (e.name = "JsonWebTokenError"),
     respond := fun _ _ rid =>
       { status := 401, success := false, message := "Invalid token",
         requestId := some rid, errors := none, stack := none } },
   { applies := fun e => decide (e.name = "TokenExpiredError"),
     respond := fun _ _ rid =>
       { status := 401, success := false, message := "Token expired",
         requestId := some rid, errors := none, stack := none } },
   { applies := fun e => decide (e.errType = some "entity.too.large"),
     respond := fun _ _ rid =>
       { status := 413, success := false,
         message := "Request payload too large",
         requestId := some rid, errors := none, stack := none } }]

/-- C2 amended: for every failure the terminal handler classifies by trying,
first match wins, the rules CORS rejection (403), rate limit (429, passing
the configured message through), validation failure (400 with the per-field
error list), invalid token (401), expired token (401), payload-too-large
(413), and otherwise defaults to the declared status or 500 with the message
replaced by a generic string in production builds, the original message (or
a fixed fallback when empty) otherwise, and the stack trace attached only in
development builds. -/
theorem C2_error_classifier_amended (env : String) (e : CustomError)
    (rid : String) :
    errorHandler env e rid = applyRules env e rid classifierRules := by
  simp only [errorHandler, applyRules, classifierRules, defaultClassification,
    decide_eq_true_eq]

/-! ## Terminating responses of the chain middlewares
(`Backend/src/middlewares/apiSecurity.ts` and the 404 handler of
`Backend/src/app.ts`). -/

/-- The 400 body sent by `detectSuspiciousActivity`. -/
def suspiciousActivityResponse (rid : String) : ErrResponse :=
  { status := 400, success := false, message := "Invalid request detected",
    requestId := some rid, errors := none, stack := none }

/-- The 400 body sent by `validateUserAgent` when the header is absent. -/
def userAgentMissingResponse (rid : String) : ErrResponse :=
  { status := 400, success := false,
    message := "User-Agent header is required",
    requestId := some rid, errors := none, stack := none }

/-- The 403 body sent by `validateUserAgent` when the user agent matches the
malicious list.  The source builds this body from `success` and `message`
alone: no `requestId` field is included. -/
def userAgentBlockedResponse : ErrResponse :=
  { status := 403, success := false, message := "Access denied",
    requestId := none, errors := none, stack := none }

/-- The 400 body sent by `validateContentType` when the header is absent. -/
def contentTypeMissingResponse (rid : String) : ErrResponse :=
  { status := 400, success := false,
    message := "Content-Type header is required",
    requestId := some rid, errors := none, stack := none }

/-- The 415 body sent by `validateContentType` on a disallowed type. -/
def contentTypeUnsupportedResponse (allowedTypes : List String)
    (rid : String) : ErrResponse :=
  { status := 415, success := false,
    message := "Unsupported Content-Type. Allowed: "
      ++ String.intercalate ", " allowedTypes,
    requestId := some rid, errors := none, stack := none }

/-- The 404 body sent by the fallthrough route handler. -/
def notFoundResponse (method url rid : String) : ErrResponse :=
  { status := 404, success := false,
    message := "Route " ++ method ++ " " ++ url ++ " not found",
    requestId := some rid, errors := none, stack := none }

/-- The 429 body `generalLimiter` terminates the chain with.  The limiter is
express-rate-limit configured in `Backend/src/config/security.ts` with the
static `message` object below; the library's default handler sends that body
directly with status 429 when the per-IP count exceeds the maximum, never
reaching the error classifier, and the configured body carries no
`requestId` field. -/
def generalLimiterResponse : ErrResponse :=
  { status := 429, success := false,
    message := "Too many requests from this IP, please try again later.",
    requestId := none, errors := none, stack := none }

/-- Character-wise lower-casing (JavaScript `String.prototype.toLowerCase`
restricted to the ASCII range the blocked substrings live in). -/
def lowerChars (s : List Char) : List Char :=
  s.map Char.toLower

/-- Does `needle` occur as a contiguous run inside `hay`
(JavaScript `String.prototype.includes`)? -/
def listContains (hay needle : List Char) : Bool :=
  match hay with
  | [] => needle.isEmpty
  | c :: t => needle.isPrefixOf (c :: t) || listContains t needle

/-- The blocked user-agent substrings of `validateUserAgent`. -/
def maliciousAgents : List String :=
  ["sqlmap", "nikto", "nmap", "masscan"]

/-- `validateUserAgent`: 400 when the header is absent, 403 when the
lower-cased agent contains a blocked substring, otherwise continue
(`none`). -/
def validateUserAgent (rid : String) (userAgent : Option String) :
    Option ErrResponse :=
  match userAgent with
  | none => some (userAgentMissingResponse rid)
  | some ua =>
    if maliciousAgents.any
        (fun a => listContains (lowerChars ua.data) a.data) then
      some userAgentBlockedResponse
    else
      none

/-- `validateContentType allowedTypes`: skipped for GET; 400 when the header
is absent; 415 when no allowed type occurs inside the lower-cased header. -/
def validateContentType (allowedTypes : List String) (rid method : String)
    (contentType : Option String) : Option ErrResponse :=
  if method = "GET" then none
  else
    match contentType with
    | none => some (contentTypeMissingResponse rid)
    | some ct =>
      if allowedTypes.any
          (fun t => listContains (lowerChars ct.data) (lowerChars t.data)) then
        none
      else
        some (contentTypeUnsupportedResponse allowedTypes rid)

/-- C3 counterexample: the chain does produce error responses without a
`requestId`.  A request whose user agent is `sqlmap/1.6` is terminated by
`validateUserAgent` with the 403 `Access denied` body, which carries no
`requestId` field; and the 429 body `generalLimiter` sends directly on a
rate-limit violation carries none either. -/
theorem C3_counterexample :
    validateUserAgent "r1" (some "sqlmap/1.6") =
      some userAgentBlockedResponse ∧
    userAgentBlockedResponse.requestId = none ∧
    generalLimiterResponse.requestId = none := by
  decide

/-- C3 amended: every error response of the terminal classifier and of the
chain's terminating middlewares carries the originating `requestId` — except
the malicious-user-agent 403 of `validateUserAgent` and the static 429 body
that `generalLimiter` sends directly on a rate-limit violation, both of
which omit it. -/
theorem C3_error_responses_carry_requestId (env : String) (e : CustomError)
    (rid method url : String) (allowedTypes : List String) :
    (errorHandler env e rid).requestId = some rid ∧
    (notFoundResponse method url rid).requestId = some rid ∧
    (suspiciousActivityResponse rid).requestId = some rid ∧
    (userAgentMissingResponse rid).requestId = some rid ∧
    (contentTypeMissingResponse rid).requestId = some rid ∧
    (contentTypeUnsupportedResponse allowedTypes rid).requestId = some rid ∧
    userAgentBlockedResponse.requestId = none ∧
    generalLimiterResponse.requestId = none := by
  refine ⟨?_, rfl, rfl, rfl, rfl, rfl, rfl, rfl⟩
  simp only [errorHandler]
  split_ifs <;> rfl

/-! ## Client HTTP response interceptor (`Frontend/src/services/api.ts`)

The error branch of the axios response interceptor.  `AxiosConfig.retried`
is the `_retry` marker the interceptor writes onto the request config;
`refreshOk` abstracts whether a stored, unexpired refresh token exists and
the refresh call succeeds.  On a 401 of an unretried request the interceptor
marks the config and, when the refresh succeeds, replays the request once
with the marked config; in every other situation it surfaces the error. -/

structure AxiosConfig where
  retried : Bool
  deriving DecidableEq

inductive RespAction where
  | replay (cfg : AxiosConfig)
  | reject
  deriving DecidableEq

/-- The response-error interceptor of `Frontend/src/services/api.ts`. -/
def responseInterceptor (cfg : AxiosConfig) (status : Option Nat)
    (refreshOk : Bool) : RespAction :=
  if status = some 401 ∧ cfg.retried = false then
    if refreshOk then RespAction.replay { cfg with retried := true }
    else RespAction.reject
  else RespAction.reject

/-- Feed a stream of response statuses through the interceptor, following
each replay with the next status, and count the replays performed. -/
def replayCount (refreshOk : Bool) : AxiosConfig → List (Option Nat) → Nat
  | _, [] => 0
  | cfg, s :: rest =>
    match responseInterceptor cfg s refreshOk with
    | RespAction.replay cfg2 => 1 + replayCount refreshOk cfg2 rest
    | RespAction.reject => 0

theorem responseInterceptor_replay_retried {cfg : AxiosConfig}
    {s : Option Nat} {r : Bool} {cfg2 : AxiosConfig}
    (h : responseInterceptor cfg s r = RespAction.replay cfg2) :
    cfg2 = { retried := true } := by
  unfold responseInterceptor at h
  split at h
  · split at h
    · exact (RespAction.replay.inj h).symm
    · exact absurd h (by simp)
  · exact absurd h (by simp)

theorem replayCount_retried (refreshOk : Bool) (l : List (Option Nat)) :
    replayCount refreshOk { retried := true } l = 0 := by
  cases l with
  | nil => rfl
  | cons s rest => simp [replayCount, responseInterceptor]

/-- C4: the interceptor performs at most one refresh-and-replay per request
— over any stream of responses a request starting unretried is replayed at
most once — and a request already marked as retried is never refreshed or
replayed, so a second 401 on the replay is surfaced as an error. -/
theorem C4_single_retry (refreshOk : Bool) (statuses : List (Option Nat)) :
    replayCount refreshOk { retried := false } statuses ≤ 1 ∧
    (∀ cfg status, cfg.retried = true →
      responseInterceptor cfg status refreshOk = RespAction.reject) := by
  constructor
  · cases statuses with
    | nil => exact Nat.zero_le 1
    | cons s rest =>
      show (match responseInterceptor { retried := false } s refreshOk with
        | RespAction.replay cfg2 => 1 + replayCount refreshOk cfg2 rest
        | RespAction.reject => 0) ≤ 1
      cases h : responseInterceptor { retried := false } s refreshOk with
      | replay cfg2 =>
        rw [responseInterceptor_replay_retried h]
        show 1 + replayCount refreshOk { retried := true } rest ≤ 1
        rw [replayCount_retried]
      | reject => exact Nat.zero_le 1
  · intro cfg status hr
    unfold responseInterceptor
    rw [if_neg]
    simp [hr]

/-- Witness for C4 on a request that receives 401 twice with a working
refresh token. -/
theorem C4_single_retry_witness :
    replayCount true { retried := false } [some 401, some 401] ≤ 1 ∧
    responseInterceptor { retried := true } (some 401) true =
      RespAction.reject :=
  ⟨(C4_single_retry true [some 401, some 401]).1,
   (C4_single_retry true [some 401, some 401]).2 { retried := true }
     (some 401) rfl⟩

/-! ## Input sanitizer (`Backend/src/middlewares/apiSecurity.ts`)

`sanitizeInput` rewrites every string entry of the request body, query and
params by three global regex replacements followed by a trim:

1. `/<script\b[^<]*(?:(?!<\/script>)<[^<]*)*<\/script>/gi` — a match starts
   at a case-insensitive `<script` whose following character is not a word
   character, and (the starred group consuming every `<` that does not open
   the closing tag) extends to the first case-insensitive `</script>`;
2. `/javascript:/gi`;
3. `/on\w+\s*=/gi` — here the greedy `\w+` and `\s*` need no backtracking
   because word characters, whitespace and `=` are pairwise disjoint.

The replacement scans are modelled on `List Char` with a fuel argument that
starts at the input length; the lemmas `matchScriptAt_length` and
`matchEventAt_pos` show every recursive call keeps the remaining input
within the fuel, so the fuel-exhausted branch is unreachable. -/

/-- JavaScript regex word characters `\w` = `[A-Za-z0-9_]`. -/
def isWordChar (c : Char) : Bool :=
  c.isAlphanum || c == '_'

/-- Does the input start with the pattern, case-insensitively
(regex `i` flag)? -/
def startsWithCI : List Char → List Char → Bool
  | _, [] => true
  | [], _ :: _ => false
  | c :: cs, p :: ps => (c.toLower == p.toLower) && startsWithCI cs ps

def scriptOpenPattern : List Char :=
  ['<', 's', 'c', 'r', 'i', 'p', 't']

def scriptClosePattern : List Char :=
  ['<', '/', 's', 'c', 'r', 'i', 'p', 't', '>']

/-- Scan for the first case-insensitive occurrence of `</script>`; on
success return the input remainder after it.  The starred group of the
script regex consumes every `<` that does not open the closing tag, so the
whole match ends exactly at this first occurrence. -/
def findScriptEnd : List Char → Option (List Char)
  | [] => none
  | c :: rest =>
    if startsWithCI (c :: rest) scriptClosePattern then
      some (List.drop 8 rest)
    else
      findScriptEnd rest

/-- The `\b` after `<script`: the next character must not be a word
character (or the input ends). -/
def boundaryOk : List Char → Bool
  | [] => true
  | c :: _ => !isWordChar c

/-- Try to match the script-block regex at the head of the input; on
success return the remainder after the matched block. -/
def matchScriptAt (s : List Char) : Option (List Char) :=
  if startsWithCI s scriptOpenPattern && boundaryOk (List.drop 7 s) then
    findScriptEnd (List.drop 7 s)
  else
    none

theorem findScriptEnd_length {s r : List Char}
    (h : findScriptEnd s = some r) : r.length < s.length := by
  induction s with
  | nil => simp [findScriptEnd] at h
  | cons c rest ih =>
    rw [findScriptEnd] at h
    split at h
    · cases h
      simp only [List.length_cons, List.length_drop]
      omega
    · exact Nat.lt_succ_of_lt (ih h)

theorem matchScriptAt_length {s r : List Char}
    (h : matchScriptAt s = some r) : r.length < s.length := by
  rw [matchScriptAt] at h
  split at h
  · have hl := findScriptEnd_length h
    simp only [List.length_drop] at hl
    omega
  · cases h

/-- One global-replace scan of the script-block regex: at each position try
a match; on a match continue after it (`String.prototype.replace` with `g`
resumes at the match end), otherwise keep the character.  `fuel` starts at
the input length and bounds the recursion; by `matchScriptAt_length` it
never runs out. -/
def stripScriptAux : Nat → List Char → List Char
  | _, [] => []
  | 0, s => s
  | fuel + 1, c :: rest =>
    match matchScriptAt (c :: rest) with
    | some remainder => stripScriptAux fuel remainder
    | none => c :: stripScriptAux fuel rest

def stripScriptTags (s : List Char) : List Char :=
  stripScriptAux s.length s

def jsSchemePattern : List Char :=
  ['j', 'a', 'v', 'a', 's', 'c', 'r', 'i', 'p', 't', ':']

/-- Global replace of `/javascript:/gi` by the empty string. -/
def stripJsAux : Nat → List Char → List Char
  | _, [] => []
  | 0, s => s
  | fuel + 1, c :: rest =>
    if startsWithCI (c :: rest) jsSchemePattern then
      stripJsAux fuel (List.drop 10 rest)
    else
      c :: stripJsAux fuel rest

def stripJavascriptScheme (s : List Char) : List Char :=
  stripJsAux s.length s

def eventWordLen (rest : List Char) : Nat :=
  (rest.takeWhile isWordChar).length

def eventSpaceLen (rest : List Char) : Nat :=
  ((rest.drop (eventWordLen rest)).takeWhile Char.isWhitespace).length

/-- Try to match `on\w+\s*=` at the head of the input; on success return
the match length. -/
def matchEventAt (s : List Char) : Option Nat :=
  match s with
  | o :: n :: rest =>
    if (o.toLower == 'o') && (n.toLower == 'n') then
      if eventWordLen rest = 0 then none
      else
        match (rest.drop (eventWordLen rest)).drop (eventSpaceLen rest) with
        | '=' :: _ => some (2 + eventWordLen rest + eventSpaceLen rest + 1)
        | _ => none
    else none
  | _ => none

theorem matchEventAt_pos {s : List Char} {k : Nat}
    (h : matchEventAt s = some k) : 0 < k ∧ 2 ≤ s.length := by
  unfold matchEventAt at h
  split at h
  · split at h
    · split at h
      · cases h
      · split at h
        · cases h
          constructor
          · omega
          · simp only [List.length_cons]
            omega
        · cases h
    · cases h
  · cases h

/-- Global replace of `/on\w+\s*=/gi` by the empty string. -/
def stripEventAux : Nat → List Char → List Char
  | _, [] => []
  | 0, s => s
  | fuel + 1, c :: rest =>
    match matchEventAt (c :: rest) with
    | some k => stripEventAux fuel (List.drop k (c :: rest))
    | none => c :: stripEventAux fuel rest

def stripEventHandlers (s : List Char) : List Char :=
  stripEventAux s.length s

/-- JavaScript `String.prototype.trim`: whitespace removed at both ends. -/
def trimChars (s : List Char) : List Char :=
  ((s.dropWhile Char.isWhitespace).reverse.dropWhile Char.isWhitespace).reverse

/-- The transformation `sanitizeInput` applies to each string entry:
remove script blocks, remove `javascript:` occurrences, remove inline
event-handler assignments, then trim. -/
def sanitizeString (s : String) : String :=
  String.mk (trimChars (stripEventHandlers (stripJavascriptScheme
    (stripScriptTags s.data))))

/-! JSON-like value trees: the `string`, `number`, `boolean`, `null`,
object and array cases the sanitizer distinguishes. -/

mutual

inductive JValue where
  | jstr : String → JValue
  | jnum : Int → JValue
  | jbool : Bool → JValue
  | jnull : JValue
  | jobj : JFields → JValue
  | jarr : JItems → JValue

inductive JFields where
  | fnil : JFields
  | fcons : String → JValue → JFields → JFields

inductive JItems where
  | inil : JItems
  | icons : JValue → JItems → JItems

end

mutual

/-- The body of the sanitizer's `for (const key in obj)` loop: string
values are rewritten, values of `typeof 'object'` (objects, arrays and
`null` — sanitizing `null` returns `null`) are recursed into, all other
scalars pass through. -/
def sanitizeEntry : JValue → JValue
  | .jstr s => .jstr (sanitizeString s)
  | .jobj fs => .jobj (sanitizeFields fs)
  | .jarr xs => .jarr (sanitizeItems xs)
  | v => v

def sanitizeFields : JFields → JFields
  | .fnil => .fnil
  | .fcons k v rest => .fcons k (sanitizeEntry v) (sanitizeFields rest)

def sanitizeItems : JItems → JItems
  | .inil => .inil
  | .icons v rest => .icons (sanitizeEntry v) (sanitizeItems rest)

end

/-- The top level of `sanitize`: a non-object (including a bare string or
`null`) returns unchanged; an object or array enters the loop. -/
def sanitize : JValue → JValue
  | .jobj fs => .jobj (sanitizeFields fs)
  | .jarr xs => .jarr (sanitizeItems xs)
  | v => v

mutual

/-- The shape of a value: identical except every string leaf's content is
erased.  Equal shapes mean the same object/array nesting, the same keys in
the same order, and identical non-string scalars. -/
def shapeVal : JValue → JValue
  | .jstr _ => .jstr ""
  | .jobj fs => .jobj (shapeFields fs)
  | .jarr xs => .jarr (shapeItems xs)
  | v => v

def shapeFields : JFields → JFields
  | .fnil => .fnil
  | .fcons k v rest => .fcons k (shapeVal v) (shapeFields rest)

def shapeItems : JItems → JItems
  | .inil => .inil
  | .icons v rest => .icons (shapeVal v) (shapeItems rest)

end

mutual

theorem shape_sanitizeEntry : ∀ v : JValue,
    shapeVal (sanitizeEntry v) = shapeVal v
  | .jstr _ => rfl
  | .jnum _ => rfl
  | .jbool _ => rfl
  | .jnull => rfl
  | .jobj fs => congrArg JValue.jobj (shape_sanitizeFields fs)
  | .jarr xs => congrArg JValue.jarr (shape_sanitizeItems xs)

theorem shape_sanitizeFields : ∀ fs : JFields,
    shapeFields (sanitizeFields fs) = shapeFields fs
  | .fnil => rfl
  | .fcons k v rest => by
    show JFields.fcons k (shapeVal (sanitizeEntry v))
        (shapeFields (sanitizeFields rest)) =
      JFields.fcons k (shapeVal v) (shapeFields rest)
    rw [shape_sanitizeEntry v, shape_sanitizeFields rest]

theorem shape_sanitizeItems : ∀ xs : JItems,
    shapeItems (sanitizeItems xs) = shapeItems xs
  | .inil => rfl
  | .icons v rest => by
    show JItems.icons (shapeVal (sanitizeEntry v))
        (shapeItems (sanitizeItems rest)) =
      JItems.icons (shapeVal v) (shapeItems rest)
    rw [shape_sanitizeEntry v, shape_sanitizeItems rest]

end

/-- The spec's sanitizer example input. -/
def sanitizeExampleInput : JValue :=
  JValue.jobj (JFields.fcons "a"
    (JValue.jstr "<script>alert(1)</script>hi")
    (JFields.fcons "b"
      (JValue.jobj (JFields.fcons "c" (JValue.jstr "ok") JFields.fnil))
      JFields.fnil))

/-- The spec's expected sanitizer output. -/
def sanitizeExampleOutput : JValue :=
  JValue.jobj (JFields.fcons "a" (JValue.jstr "hi")
    (JFields.fcons "b"
      (JValue.jobj (JFields.fcons "c" (JValue.jstr "ok") JFields.fnil))
      JFields.fnil))

/-- C6: the sanitizer preserves the tree shape exactly — object and array
nesting, key sets and every non-string scalar are unchanged, only string
leaves are transformed — and on the spec's example it removes exactly the
script block. -/
theorem C6_sanitizer_shape_preserving :
    (∀ v : JValue, shapeVal (sanitize v) = shapeVal v) ∧
    sanitize sanitizeExampleInput = sanitizeExampleOutput := by
  constructor
  · intro v
    cases v with
    | jobj fs => exact congrArg JValue.jobj (shape_sanitizeFields fs)
    | jarr xs => exact congrArg JValue.jarr (shape_sanitizeItems xs)
    | jstr s => rfl
    | jnum n => rfl
    | jbool b => rfl
    | jnull => rfl
  · rfl

/-! ## Backend secrets manager (unnamed backend source, `SecretsManager`)

`hash` derives `pbkdf2Sync(data, actualSalt, 100000, 64, 'sha512')` in hex,
with `actualSalt = salt || crypto.randomBytes(16).toString('hex')` (both
`null` and the empty string are falsy).  The PBKDF2 primitive of Node's
`crypto` module is external library code, modelled as the abstract
deterministic parameter `kdf` of the data and the salt actually used; the
fresh random salt of one call is the parameter `randomSalt`.  `verifyHash`
recomputes the hash and compares buffers with `crypto.timingSafeEqual`,
which throws when the buffers differ in length.  `sign` is
`createHmac('sha256', secret)` over the `JSON.stringify` serialization of
the payload, modelled as the abstract parameter `hmac` applied to the
serialized payload; `verifySignature` recomputes it and compares with
`timingSafeEqual` likewise.  The buffer of a string is modelled as its
character list. -/

namespace SecretsManager

structure IHashResult where
  hash : String
  salt : String
  deriving DecidableEq

/-- `crypto.timingSafeEqual(Buffer.from(a), Buffer.from(b))`: raises on
buffers of different length, otherwise reports content equality. -/
def timingSafeEqual (a b : List Char) : Except String Bool :=
  if a.length = b.length then Except.ok (decide (a = b))
  else Except.error "ERR_CRYPTO_TIMING_SAFE_EQUAL_LENGTH"

/-- `SecretsManager.hash`: choose `salt || <fresh random salt>`, return the
KDF output in hex together with the salt used. -/
def hash (kdf : String → String → String) (randomSalt : String)
    (data : String) (salt : Option String) : IHashResult :=
  let actualSalt :=
    match salt with
    | some s => if s = "" then randomSalt else s
    | none => randomSalt
  { hash := kdf data actualSalt, salt := actualSalt }

/-- `SecretsManager.verifyHash`: recompute `hash(data, salt)` and compare
the candidate and recomputed hex strings with `timingSafeEqual`. -/
def verifyHash (kdf : String → String → String) (randomSalt : String)
    (data hashValue salt : String) : Except String Bool :=
  timingSafeEqual hashValue.data
    (hash kdf randomSalt data (some salt)).hash.data

/-- `SecretsManager.sign`: HMAC of the serialized payload under the secret.
The payload argument is the `JSON.stringify` serialization. -/
def sign (hmac : String → String → String) (payload secret : String) :
    String :=
  hmac secret payload

/-- `SecretsManager.verifySignature`: recompute the signature and compare
with `timingSafeEqual`. -/
def verifySignature (hmac : String → String → String)
    (payload signature secret : String) : Except String Bool :=
  timingSafeEqual signature.data (sign hmac payload secret).data

theorem hash_of_ne_empty (kdf : String → String → String)
    (r data salt : String) (hsalt : salt ≠ "") :
    (hash kdf r data (some salt)).hash = kdf data salt := by
  simp [hash, hsalt]

end SecretsManager

/-- C8 counterexample: the claim is not universal over mutations and salts.
A mutation of the stored hash that changes its byte length makes
`verifyHash` raise the constant-time comparison's equal-length error rather
than return `false` (here the candidate `abc` against a two-byte recomputed
value); and with the empty salt — which is falsy, so each `hash` call draws
a fresh random salt — the round trip verifies against a recomputation under
a different salt and returns `false` instead of `true`. -/
theorem C8_counterexample :
    SecretsManager.verifyHash (fun d s => d ++ s) "r" "d" "abc" "s" =
      Except.error "ERR_CRYPTO_TIMING_SAFE_EQUAL_LENGTH" ∧
    SecretsManager.verifyHash (fun d s => d ++ s) "bb" "d"
      (SecretsManager.hash (fun d s => d ++ s) "aa" "d" (some "")).hash "" =
      Except.ok false :=
  ⟨rfl, rfl⟩

/-- C8 amended: for every data and every nonempty salt (an empty salt is
falsy and is replaced by a fresh random salt on each call), verifying a
freshly computed hash with the same data and salt returns `true` even
though the recomputation draws a different random salt; and every mutation
of the stored hash that preserves its byte length makes `verifyHash` return
`false` (length-changing mutations raise instead — claim C9). -/
theorem C8_hash_verify_roundtrip (kdf : String → String → String)
    (r1 r2 data salt mutated : String) (hsalt : salt ≠ "")
    (hlen : mutated.data.length =
      (SecretsManager.hash kdf r1 data (some salt)).hash.data.length)
    (hne : mutated.data ≠
      (SecretsManager.hash kdf r1 data (some salt)).hash.data) :
    SecretsManager.verifyHash kdf r2 data
      (SecretsManager.hash kdf r1 data (some salt)).hash salt =
      Except.ok true ∧
    SecretsManager.verifyHash kdf r2 data mutated salt =
      Except.ok false := by
  rw [SecretsManager.hash_of_ne_empty kdf r1 data salt hsalt] at hlen hne ⊢
  unfold SecretsManager.verifyHash
  rw [SecretsManager.hash_of_ne_empty kdf r2 data salt hsalt]
  unfold SecretsManager.timingSafeEqual
  constructor
  · simp
  · rw [if_pos hlen]
    simp [hne]

/-- Witness for C8 with a concrete KDF stand-in, data, salt and an
equal-length mutated hash. -/
theorem C8_hash_verify_roundtrip_witness :
    SecretsManager.verifyHash (fun d s => d ++ s) "r2" "d"
      (SecretsManager.hash (fun d s => d ++ s) "r1" "d" (some "s")).hash "s" =
      Except.ok true ∧
    SecretsManager.verifyHash (fun d s => d ++ s) "r2" "d" "xy" "s" =
      Except.ok false :=
  C8_hash_verify_roundtrip (fun d s => d ++ s) "r1" "r2" "d" "s" "xy"
    (by decide) (by decide) (by decide)

/-- C9: when the candidate hash (or signature) differs in byte length from
the freshly recomputed value, `verifyHash` (or `verifySignature`) raises the
constant-time comparison's equal-length error instead of answering
`false`. -/
theorem C9_length_mismatch_raises (kdf hmac : String → String → String)
    (r data salt payload secret candidate sigCandidate : String)
    (hsalt : salt ≠ "")
    (h1 : candidate.data.length ≠ (kdf data salt).data.length)
    (h2 : sigCandidate.data.length ≠ (hmac secret payload).data.length) :
    SecretsManager.verifyHash kdf r data candidate salt =
      Except.error "ERR_CRYPTO_TIMING_SAFE_EQUAL_LENGTH" ∧
    SecretsManager.verifySignature hmac payload sigCandidate secret =
      Except.error "ERR_CRYPTO_TIMING_SAFE_EQUAL_LENGTH" := by
  constructor
  · unfold SecretsManager.verifyHash
    rw [SecretsManager.hash_of_ne_empty kdf r data salt hsalt]
    unfold SecretsManager.timingSafeEqual
    rw [if_neg h1]
  · unfold SecretsManager.verifySignature SecretsManager.sign
      SecretsManager.timingSafeEqual
    rw [if_neg h2]

/-- Witness for C9 with concrete primitives and length-changing mutations. -/
theorem C9_length_mismatch_raises_witness :
    SecretsManager.verifyHash (fun d s => d ++ s) "r" "d" "abc" "s" =
      Except.error "ERR_CRYPTO_TIMING_SAFE_EQUAL_LENGTH" ∧
    SecretsManager.verifySignature (fun k m => k ++ m) "p" "abc" "k" =
      Except.error "ERR_CRYPTO_TIMING_SAFE_EQUAL_LENGTH" :=
  C9_length_mismatch_raises (fun d s => d ++ s) (fun k m => k ++ m)
    "r" "d" "s" "p" "k" "abc" "abc" (by decide) (by decide) (by decide)

end MernSpec
